import Mathlib

/-!
Shallow embedding of the medical-appointment dashboard (`app.py`).

The program loads a CSV of appointment records, cleans it (drops negative
ages, parses both timestamp columns, derives waiting days, weekday names,
a 0/1 no-show flag, string mirrors of the binary flags, and decade age
buckets), computes two summary tables (no-show rate by age bucket and by
weekday), renders four summary cards, and serves seven charts; only the
main chart depends on the dropdown selection.

Timestamps are modelled as integers counting seconds since the epoch
(1970-01-01T00:00:00, a Thursday); pandas stores nanoseconds, but every
operation the program performs on them (difference, floor-division into
whole days, weekday name) has identical semantics at this granularity.
Pandas `Timedelta.days` is floor division toward negative infinity, which
`Int.fdiv` reproduces; `pd.cut(..., right=False)` yields right-open decade
intervals with `NaN` outside them, modelled as `Option ℕ` bucket indices.
A dataframe is modelled column-oriented as an association list from column
name to a list of values, so that column lookup by name (the only failure
point of the chart builders and of the summary cards' `['Yes']` indexing)
is `List.lookup` returning `Option`.
-/

namespace Dashboard

/-- A cell value of a dataframe column: integer, string, rational, or
missing (`NaN`). -/
inductive Val where
  | i (z : ℤ)
  | s (str : String)
  | q (x : ℚ)
  | na
deriving DecidableEq

/-- A key of a plotly `color_discrete_map`: the program keys some maps by
the string outcome label and others by the integer 0/1 no-show flag. -/
inductive ColorKey where
  | str (s : String)
  | num (n : ℤ)
deriving DecidableEq

/-- `NO_SHOW_COLOR = '#FF9500'` (app.py line 12). -/
def NO_SHOW_COLOR : String := "#FF9500"

/-- `SHOW_COLOR = '#007AFF'` (app.py line 13). -/
def SHOW_COLOR : String := "#007AFF"

/-- One raw CSV row, restricted to the columns the program uses.
`scheduledDay` and `appointmentDay` are timestamps in seconds. -/
structure RawRow where
  gender : String
  scheduledDay : ℤ
  appointmentDay : ℤ
  age : ℤ
  scholarship : ℕ
  hipertension : ℕ
  diabetes : ℕ
  alcoholism : ℕ
  smsReceived : ℕ
  noShow : String
deriving DecidableEq

/-- A cleaned row: the raw columns plus every derived column the cleaning
block (app.py lines 20-34) adds. -/
structure Row extends RawRow where
  waitingDays : ℤ
  appointmentDayOfWeek : String
  noShowFlag : ℕ
  smsLabel : String
  scholarshipLabel : String
  hipertensionLabel : String
  diabetesLabel : String
  alcoholismLabel : String
  ageGroup : Option ℕ
deriving DecidableEq

/-- `day_order` (app.py line 39), also the order `pandas.Series.dt.day_name`
names come from. -/
def dayOrder : List String :=
  ["Monday", "Tuesday", "Wednesday", "Thursday", "Friday", "Saturday", "Sunday"]

/-- Weekday name of a timestamp, as `pandas.Series.dt.day_name` returns it:
the epoch day 0 (1970-01-01) is a Thursday, index 3 of `dayOrder`. -/
def dayName (ts : ℤ) : String :=
  dayOrder.getD ((((Int.fdiv ts 86400) + 3).emod 7).toNat) ""

/-- The derived columns of one row (app.py lines 23-34):
`WaitingDays = (AppointmentDay - ScheduledDay).dt.days` (floor of the
difference in whole days), `AppointmentDayOfWeek = dt.day_name()`,
`No-show_flag = (No-show == "Yes").astype(int)`, the five `astype(str)`
label mirrors, and `Age_Group = pd.cut(Age, bins=[0,10,...,100],
right=False)` (right-open decade buckets, `NaN` outside `[0, 100)`).
The `replace({'No': 'No', 'Yes': 'Yes'})` on line 25 is the identity. -/
def deriveRow (r : RawRow) : Row :=
  { r with
    waitingDays := Int.fdiv (r.appointmentDay - r.scheduledDay) 86400
    appointmentDayOfWeek := dayName r.appointmentDay
    noShowFlag := if r.noShow = "Yes" then 1 else 0
    smsLabel := toString r.smsReceived
    scholarshipLabel := toString r.scholarship
    hipertensionLabel := toString r.hipertension
    diabetesLabel := toString r.diabetes
    alcoholismLabel := toString r.alcoholism
    ageGroup :=
      if 0 ≤ r.age ∧ r.age < 100 then some (r.age.toNat / 10) else none }

/-- The cleaning pipeline: `df = df[df['Age'] >= 0]` (app.py line 20)
followed by the derived columns. -/
def clean (rs : List RawRow) : List Row :=
  (rs.filter fun x => decide (0 ≤ x.age)).map deriveRow

/-- Mean of the `No-show_flag` column over a list of rows, as
`groupby(...)['No-show_flag'].mean()` computes it on a nonempty group. -/
def flagMean (t : List Row) : ℚ :=
  (t.map fun r => (r.noShowFlag : ℚ)).sum / (t.length : ℚ)

/-- One row of the `age_group_rate` summary table (app.py lines 35-37):
the bucket index, the group mean of the flag, and the rate column
`No-show Rate (%) = mean * 100`. -/
structure AgeRateRow where
  bucket : ℕ
  meanFlag : ℚ
  ratePct : ℚ
deriving DecidableEq

/-- The rows of the cleaned table falling in decade bucket `b`. -/
def bucketRows (t : List Row) (b : ℕ) : List Row :=
  t.filter fun r => decide (r.ageGroup = some b)

/-- `age_group_rate` (app.py lines 35-36): group by the categorical
`Age_Group` with `observed=True`, so exactly the nonempty buckets appear,
in bucket order; `NaN`-bucket rows (age outside `[0,100)`) join no group. -/
def ageGroupRate (t : List Row) : List AgeRateRow :=
  (List.range 10).filterMap fun b =>
    if (bucketRows t b).isEmpty then none
    else some ⟨b, flagMean (bucketRows t b), flagMean (bucketRows t b) * 100⟩

/-- One row of the `day_rate` summary table (app.py lines 40-41) after the
`reindex(day_order)`: a weekday absent from the data carries `NaN` in both
numeric columns, modelled as `none`. -/
structure DayRateRow where
  day : String
  meanFlag : Option ℚ
  ratePct : Option ℚ
deriving DecidableEq

/-- `day_rate` (app.py lines 40-41): group the flag means by weekday name,
reindex into Monday..Sunday order (one row per `dayOrder` entry, `NaN` for
a weekday with no rows), and add `No-show Rate (%) = mean * 100`. -/
def dayRate (t : List Row) : List DayRateRow :=
  dayOrder.map fun d =>
    if (t.filter fun r => r.appointmentDayOfWeek == d).isEmpty then ⟨d, none, none⟩
    else ⟨d, some (flagMean (t.filter fun r => r.appointmentDayOfWeek == d)),
          some (flagMean (t.filter fun r => r.appointmentDayOfWeek == d) * 100)⟩

/-- The kind of plotly express figure a callback builds. -/
inductive ChartKind where
  | histogram
  | pie
  | bar
  | box
deriving DecidableEq

/-- A declarative chart specification: the arguments the program passes to
the plotly express constructor, including the dataframe (column-oriented).
Fields the program does not pass for a given chart keep their defaults,
exactly as the keyword arguments it omits keep plotly's defaults. The
uniform styling applied afterwards (`update_layout`, `update_xaxes`,
`update_yaxes` with constant arguments) is identical for every chart and
every input, so it is not represented. -/
structure ChartSpec where
  kind : ChartKind
  frame : List (String × List Val)
  x : Option String := none
  y : Option String := none
  names : Option String := none
  color : Option String := none
  nbins : Option ℕ := none
  barmode : Option String := none
  colorMap : List (ColorKey × String) := []
  colorSeq : List String := []
  title : String
deriving DecidableEq

/-- `color_discrete_map={"Yes": NO_SHOW_COLOR, "No": SHOW_COLOR}`, the map
keyed by the string outcome label. -/
def outcomeColorMap : List (ColorKey × String) :=
  [(ColorKey.str "Yes", NO_SHOW_COLOR), (ColorKey.str "No", SHOW_COLOR)]

/-- `color_discrete_map={1: NO_SHOW_COLOR, 0: SHOW_COLOR}`, the map keyed
by the integer no-show flag. -/
def flagColorMap : List (ColorKey × String) :=
  [(ColorKey.num 1, NO_SHOW_COLOR), (ColorKey.num 0, SHOW_COLOR)]

/-- The string label of a decade bucket, as pandas prints the right-open
interval (`"[0, 10)"` and so on), used by `Age_Group.astype(str)`. -/
def bucketStr (b : ℕ) : String :=
  "[" ++ toString (10 * b) ++ ", " ++ toString (10 * (b + 1)) ++ ")"

/-- The cleaned dataframe `df`, column-oriented: every column the cleaning
block leaves in it, keyed by its pandas column name. -/
def dfFrame (t : List Row) : List (String × List Val) :=
  [("Gender", t.map fun r => Val.s r.gender),
   ("ScheduledDay", t.map fun r => Val.i r.scheduledDay),
   ("AppointmentDay", t.map fun r => Val.i r.appointmentDay),
   ("Age", t.map fun r => Val.i r.age),
   ("Scholarship", t.map fun r => Val.i (r.scholarship : ℤ)),
   ("Hipertension", t.map fun r => Val.i (r.hipertension : ℤ)),
   ("Diabetes", t.map fun r => Val.i (r.diabetes : ℤ)),
   ("Alcoholism", t.map fun r => Val.i (r.alcoholism : ℤ)),
   ("SMS_received", t.map fun r => Val.i (r.smsReceived : ℤ)),
   ("No-show", t.map fun r => Val.s r.noShow),
   ("WaitingDays", t.map fun r => Val.i r.waitingDays),
   ("AppointmentDayOfWeek", t.map fun r => Val.s r.appointmentDayOfWeek),
   ("No-show_flag", t.map fun r => Val.i (r.noShowFlag : ℤ)),
   ("SMS_received_label", t.map fun r => Val.s r.smsLabel),
   ("Scholarship_label", t.map fun r => Val.s r.scholarshipLabel),
   ("Hipertension_label", t.map fun r => Val.s r.hipertensionLabel),
   ("Diabetes_label", t.map fun r => Val.s r.diabetesLabel),
   ("Alcoholism_label", t.map fun r => Val.s r.alcoholismLabel),
   ("Age_Group",
    t.map fun r =>
      match r.ageGroup with
      | some b => Val.s (bucketStr b)
      | none => Val.na)]

/-- Column lookup by name in the cleaned dataframe, the sole failure point
of a chart constructor (a name not present raises in pandas/plotly). -/
def getCol (t : List Row) (name : String) : Option (List Val) :=
  (dfFrame t).lookup name

/-- The `value` entries of the `feature-dropdown` options (app.py lines
64-73): the eight selectable column names. -/
def dropdownValues : List String :=
  ["Age", "Gender", "Scholarship", "Hipertension", "Diabetes",
   "Alcoholism", "SMS_received", "WaitingDays"]

/-- `update_main_graph` (app.py lines 91-105): the only feature-dependent
chart. `feature in ["Age", "WaitingDays"]` selects a histogram with
`nbins=50` and the default bar mode; any other feature selects a histogram
with `barmode="group"`. Both use `color="No-show"` with the string-keyed
outcome color map. -/
def updateMainGraph (t : List Row) (feature : String) : Option ChartSpec :=
  match getCol t feature, getCol t "No-show" with
  | some _, some _ =>
    if feature ∈ (["Age", "WaitingDays"] : List String) then
      some { kind := ChartKind.histogram, frame := dfFrame t,
             x := some feature, color := some "No-show", nbins := some 50,
             colorMap := outcomeColorMap,
             title := "Distribution of " ++ feature ++ " by Attendance" }
    else
      some { kind := ChartKind.histogram, frame := dfFrame t,
             x := some feature, color := some "No-show",
             barmode := some "group", colorMap := outcomeColorMap,
             title := "Attendance by " ++ feature }
  | _, _ => none

/-- `update_target_graph` (app.py lines 107-114): the outcome pie chart;
its dropdown argument is ignored. -/
def updateTargetGraph (t : List Row) ( _feature : String) : Option ChartSpec :=
  match getCol t "No-show" with
  | some _ =>
    some { kind := ChartKind.pie, frame := dfFrame t,
           names := some "No-show", color := some "No-show",
           colorMap := outcomeColorMap,
           title := "Show vs No-Show Distribution" }
  | none => none

/-- Lexicographic order on (gender or label, flag) group keys, the order
`groupby` sorts its groups into. -/
def keyLe (a b : String × ℕ) : Bool :=
  decide (a.1 < b.1) || (a.1 == b.1 && decide (a.2 ≤ b.2))

/-- Insert into a `keyLe`-sorted list. -/
def insertKey (x : String × ℕ) : List (String × ℕ) → List (String × ℕ)
  | [] => [x]
  | y :: ys => if keyLe x y then x :: y :: ys else y :: insertKey x ys

/-- Insertion sort of group keys by `keyLe`. -/
def sortKeys (l : List (String × ℕ)) : List (String × ℕ) :=
  l.foldr insertKey []

/-- `df.groupby([col, "No-show_flag"]).size().reset_index(name="count")`
for a string-valued column extracted by `f`: one row per observed
(value, flag) pair, in sorted key order, with the group size. -/
def groupSizes (f : Row → String) (t : List Row) : List (String × ℕ × ℕ) :=
  (sortKeys ((t.map fun r => (f r, r.noShowFlag)).dedup)).map fun p =>
    (p.1, p.2, (t.filter fun r => f r == p.1 && r.noShowFlag == p.2).length)

/-- `gender_counts` (app.py line 118). -/
def genderCounts (t : List Row) : List (String × ℕ × ℕ) :=
  groupSizes (fun r => r.gender) t

/-- The `gender_counts` dataframe handed to `px.bar`. -/
def genderFrame (t : List Row) : List (String × List Val) :=
  [("Gender", (genderCounts t).map fun p => Val.s p.1),
   ("No-show_flag", (genderCounts t).map fun p => Val.i (p.2.1 : ℤ)),
   ("count", (genderCounts t).map fun p => Val.i (p.2.2 : ℤ))]

/-- `update_gender_graph` (app.py lines 116-124): grouped bar of counts by
gender and flag, flag-keyed color map; dropdown argument ignored. -/
def updateGenderGraph (t : List Row) ( _feature : String) : Option ChartSpec :=
  match getCol t "Gender", getCol t "No-show_flag" with
  | some _, some _ =>
    some { kind := ChartKind.bar, frame := genderFrame t,
           x := some "Gender", y := some "count",
           color := some "No-show_flag", barmode := some "group",
           colorMap := flagColorMap,
           title := "Attendance by Gender (0=Show, 1=No-show)" }
  | _, _ => none

/-- `sms_counts` (app.py line 128). -/
def smsCounts (t : List Row) : List (String × ℕ × ℕ) :=
  groupSizes (fun r => r.smsLabel) t

/-- The `sms_counts` dataframe handed to `px.bar`. -/
def smsFrame (t : List Row) : List (String × List Val) :=
  [("SMS_received_label", (smsCounts t).map fun p => Val.s p.1),
   ("No-show_flag", (smsCounts t).map fun p => Val.i (p.2.1 : ℤ)),
   ("count", (smsCounts t).map fun p => Val.i (p.2.2 : ℤ))]

/-- `update_sms_graph` (app.py lines 126-134): grouped bar of counts by
SMS label and flag, flag-keyed color map; dropdown argument ignored. -/
def updateSmsGraph (t : List Row) ( _feature : String) : Option ChartSpec :=
  match getCol t "SMS_received_label", getCol t "No-show_flag" with
  | some _, some _ =>
    some { kind := ChartKind.bar, frame := smsFrame t,
           x := some "SMS_received_label", y := some "count",
           color := some "No-show_flag", barmode := some "group",
           colorMap := flagColorMap,
           title := "Attendance by SMS Received (0=Show, 1=No-show)" }
  | _, _ => none

/-- `update_waiting_by_day` (app.py lines 136-143): box plot of waiting
days by weekday, colored by outcome; dropdown argument ignored. -/
def updateWaitingByDay (t : List Row) ( _feature : String) : Option ChartSpec :=
  match getCol t "AppointmentDayOfWeek", getCol t "WaitingDays",
        getCol t "No-show" with
  | some _, some _, some _ =>
    some { kind := ChartKind.box, frame := dfFrame t,
           x := some "AppointmentDayOfWeek", y := some "WaitingDays",
           color := some "No-show", colorMap := outcomeColorMap,
           title := "Waiting Days by Appointment Day of the Week" }
  | _, _, _ => none

/-- The `age_group_rate` summary dataframe, with the stringified interval
column (`age_group_rate['Age_Group'].astype(str)`, app.py line 37). -/
def ageRateFrame (t : List Row) : List (String × List Val) :=
  [("Age_Group", (ageGroupRate t).map fun e => Val.s (bucketStr e.bucket)),
   ("No-show_flag", (ageGroupRate t).map fun e => Val.q e.meanFlag),
   ("No-show Rate (%)", (ageGroupRate t).map fun e => Val.q e.ratePct)]

/-- `update_age_rate_graph` (app.py lines 145-151): bar of the age-bucket
rate table with the single-color sequence; dropdown argument ignored. -/
def updateAgeRateGraph (t : List Row) ( _feature : String) : Option ChartSpec :=
  match (ageRateFrame t).lookup "Age_Group",
        (ageRateFrame t).lookup "No-show Rate (%)" with
  | some _, some _ =>
    some { kind := ChartKind.bar, frame := ageRateFrame t,
           x := some "Age_Group", y := some "No-show Rate (%)",
           colorSeq := [NO_SHOW_COLOR],
           title := "No-Show Rate by Age Group" }
  | _, _ => none

/-- The `day_rate` summary dataframe (reindexed Monday..Sunday, `NaN` for
weekdays with no appointments). -/
def dayRateFrame (t : List Row) : List (String × List Val) :=
  [("AppointmentDayOfWeek", (dayRate t).map fun e => Val.s e.day),
   ("No-show_flag",
    (dayRate t).map fun e =>
      match e.meanFlag with
      | some v => Val.q v
      | none => Val.na),
   ("No-show Rate (%)",
    (dayRate t).map fun e =>
      match e.ratePct with
      | some v => Val.q v
      | none => Val.na)]

/-- `update_day_rate_graph` (app.py lines 153-160): bar of the weekday rate
table with the single-color sequence; dropdown argument ignored. -/
def updateDayRateGraph (t : List Row) ( _feature : String) : Option ChartSpec :=
  match (dayRateFrame t).lookup "AppointmentDayOfWeek",
        (dayRateFrame t).lookup "No-show Rate (%)" with
  | some _, some _ =>
    some { kind := ChartKind.bar, frame := dayRateFrame t,
           x := some "AppointmentDayOfWeek", y := some "No-show Rate (%)",
           colorSeq := [NO_SHOW_COLOR],
           title := "No-Show Rate by Day of the Week" }
  | _, _ => none

/-- `df['No-show'].value_counts(normalize=True)` (app.py lines 55-56): one
entry per distinct outcome value present, with its share of the rows.
`value_counts` orders entries by frequency; the program only ever indexes
the result by key, for which the entry order is irrelevant. -/
def valueCountsNormalized (t : List Row) : List (String × ℚ) :=
  ((t.map fun r => r.noShow).dedup).map fun v =>
    (v, (((t.map fun r => r.noShow).count v : ℚ) / (t.length : ℚ)))

/-- The `['Yes']` indexing of the normalized counts: a plain key lookup,
`none` when no row has outcome `"Yes"` (a `KeyError` in pandas). -/
def noShowShare (t : List Row) : Option ℚ :=
  (valueCountsNormalized t).lookup "Yes"

/-- Python's `f"{x:.1f}"` on the exact rational the card computes: round
to one decimal place (half away from zero on the nonnegative card values)
and print with one digit after the point. -/
def formatFixed1 (x : ℚ) : String :=
  toString ((⌊x * 10 + 1 / 2⌋ : ℤ) / 10) ++ "." ++
    toString (((⌊x * 10 + 1 / 2⌋ : ℤ) % 10).natAbs)

/-- The Show Rate card text (app.py line 55):
`f"{100 - df['No-show'].value_counts(normalize=True)['Yes']*100:.1f}%"`;
`none` when the `['Yes']` lookup raises. -/
def showRateStr (t : List Row) : Option String :=
  (noShowShare t).map fun p => formatFixed1 (100 - p * 100) ++ "%"

/-- The No-Show Rate card text (app.py line 56):
`f"{df['No-show'].value_counts(normalize=True)['Yes']*100:.1f}%"`;
`none` when the `['Yes']` lookup raises. -/
def noShowRateStr (t : List Row) : Option String :=
  (noShowShare t).map fun p => formatFixed1 (p * 100) ++ "%"

/-- A raw row whose appointment day (the epoch, a Thursday) precedes its
scheduling timestamp by ten hours: the same-day-scheduling shape the
dataset actually contains, where the appointment column carries midnight
and the scheduling column carries a time of day. -/
def rawA : RawRow :=
  { gender := "F", scheduledDay := 36000, appointmentDay := 0, age := 30,
    scholarship := 0, hipertension := 1, diabetes := 0, alcoholism := 0,
    smsReceived := 1, noShow := "No" }

/-- A raw no-show row on 1970-01-05, a Monday. -/
def rawB : RawRow :=
  { gender := "M", scheduledDay := 0, appointmentDay := 345600, age := 62,
    scholarship := 1, hipertension := 0, diabetes := 1, alcoholism := 0,
    smsReceived := 0, noShow := "Yes" }

/-- A raw row with negative age, removed by cleaning. -/
def rawC : RawRow :=
  { gender := "F", scheduledDay := 0, appointmentDay := 86400, age := -1,
    scholarship := 0, hipertension := 0, diabetes := 0, alcoholism := 0,
    smsReceived := 0, noShow := "No" }

/-- A raw row with age 105, kept by cleaning but outside every decade
bucket. -/
def rawD : RawRow :=
  { gender := "M", scheduledDay := 0, appointmentDay := 86400, age := 105,
    scholarship := 0, hipertension := 0, diabetes := 0, alcoholism := 0,
    smsReceived := 0, noShow := "Yes" }

/-- `rawA` with outcome flipped to a no-show, for an all-no-show table. -/
def rawE : RawRow := { rawA with noShow := "Yes" }

/-- A small concrete raw table exercising cleaning, bucketing and both
outcomes. -/
def sampleRaws : List RawRow := [rawA, rawB, rawC, rawD]

/-- The cleaned version of `sampleRaws`. -/
def sampleT : List Row := clean sampleRaws

/-- Membership in the cleaned table comes from a raw row of nonnegative
age, through `deriveRow`. -/
lemma mem_clean {rs : List RawRow} {r : Row} (hr : r ∈ clean rs) :
    ∃ x ∈ rs, 0 ≤ x.age ∧ r = deriveRow x := by
  simp only [clean, List.mem_map, List.mem_filter, decide_eq_true_eq] at hr
  obtain ⟨x, ⟨hx, hage⟩, hdx⟩ := hr
  exact ⟨x, hx, hage, hdx.symm⟩

/-- C1: for every pair of dropdown feature values drawn from the enumerated
set, each feature-independent chart builder (outcome pie, gender-by-outcome
bar, SMS-by-outcome bar, waiting-days box plot by weekday, and the two
rate-by-bucket bars) returns an identical chart specification; in
particular the specs at selections "Age" and "Gender" coincide, so the
sequence Age, Gender, Age reproduces identical specs in all three
states. -/
theorem feature_independent_charts_agree (t : List Row) (a b : String)
    (ha : a ∈ dropdownValues) (hb : b ∈ dropdownValues) :
    updateTargetGraph t a = updateTargetGraph t b ∧
    updateGenderGraph t a = updateGenderGraph t b ∧
    updateSmsGraph t a = updateSmsGraph t b ∧
    updateWaitingByDay t a = updateWaitingByDay t b ∧
    updateAgeRateGraph t a = updateAgeRateGraph t b ∧
    updateDayRateGraph t a = updateDayRateGraph t b ∧
    updateTargetGraph t "Age" = updateTargetGraph t "Gender" ∧
    updateGenderGraph t "Age" = updateGenderGraph t "Gender" ∧
    updateSmsGraph t "Age" = updateSmsGraph t "Gender" ∧
    updateWaitingByDay t "Age" = updateWaitingByDay t "Gender" ∧
    updateAgeRateGraph t "Age" = updateAgeRateGraph t "Gender" ∧
    updateDayRateGraph t "Age" = updateDayRateGraph t "Gender" :=
  ⟨rfl, rfl, rfl, rfl, rfl, rfl, rfl, rfl, rfl, rfl, rfl, rfl⟩

/-- Witness for C1 at a concrete table and the pair ("Age", "Gender"). -/
theorem feature_independent_charts_agree_check :
    updateTargetGraph sampleT "Age" = updateTargetGraph sampleT "Gender" ∧
    updateGenderGraph sampleT "Age" = updateGenderGraph sampleT "Gender" :=
  ⟨(feature_independent_charts_agree sampleT "Age" "Gender"
      (by decide) (by decide)).1,
   (feature_independent_charts_agree sampleT "Age" "Gender"
      (by decide) (by decide)).2.1⟩

/-- C2: for every selectable feature, the main chart builder returns a
histogram split by outcome: with 50 bins and the library-default (overlaid)
bar mode when the feature is "Age" or "WaitingDays", and with
`barmode="group"` (grouped bars) for every other feature of the enumerated
set. -/
theorem main_graph_kind_by_feature (t : List Row) (f : String)
    (hf : f ∈ dropdownValues) :
    (f ∈ (["Age", "WaitingDays"] : List String) →
      (updateMainGraph t f).map (fun s => (s.kind, s.nbins, s.barmode, s.color)) =
        some (ChartKind.histogram, some 50, none, some "No-show")) ∧
    (f ∉ (["Age", "WaitingDays"] : List String) →
      (updateMainGraph t f).map (fun s => (s.kind, s.nbins, s.barmode, s.color)) =
        some (ChartKind.histogram, none, some "group", some "No-show")) := by
  fin_cases hf <;>
    exact ⟨fun h => by first | rfl | exact absurd h (by decide),
           fun h => by first | rfl | exact absurd (by decide) h⟩

/-- Witness for C2 at a concrete table, feature "Age". -/
theorem main_graph_kind_by_feature_check :
    (updateMainGraph sampleT "Age").map
        (fun s => (s.kind, s.nbins, s.barmode, s.color)) =
      some (ChartKind.histogram, some 50, none, some "No-show") :=
  (main_graph_kind_by_feature sampleT "Age" (by decide)).1 (by decide)

/-- C3, counterexample: the claim that waiting-days is the timestamp
difference truncated to whole days (rounded toward zero, `Int.tdiv`) fails
on a row whose appointment day precedes its scheduling time by ten hours:
the code floors the difference, giving -1 where truncation gives 0. -/
theorem waiting_days_not_truncated :
    ¬ (∀ (rs : List RawRow), ∀ r ∈ clean rs,
        r.waitingDays = Int.tdiv (r.appointmentDay - r.scheduledDay) 86400) := by
  intro h
  exact absurd (h [rawA] (deriveRow rawA) (by decide)) (by decide)

/-- C3, amended: for every row of the cleaned table, the derived
waiting-days field equals the appointment date minus the scheduled date
floored to whole days (rounded toward negative infinity), including rows
where the difference is negative. -/
theorem waiting_days_floor (rs : List RawRow) (r : Row) (hr : r ∈ clean rs) :
    r.waitingDays = Int.fdiv (r.appointmentDay - r.scheduledDay) 86400 := by
  obtain ⟨x, _, _, rfl⟩ := mem_clean hr
  rfl

/-- Witness for the amended C3 at a concrete cleaned row (whose waiting
days are negative). -/
theorem waiting_days_floor_check :
    (deriveRow rawA).waitingDays =
      Int.fdiv ((deriveRow rawA).appointmentDay - (deriveRow rawA).scheduledDay)
        86400 :=
  waiting_days_floor [rawA] (deriveRow rawA) (by decide)

/-- C7: after cleaning, every row of the appointment table has age >= 0:
rows with negative age present in the raw input are absent from the cleaned
table. Every later computation (the summary tables, the cards, the chart
builders) only reads this list, so the invariant holds wherever the table
is used. -/
theorem clean_age_nonneg (rs : List RawRow) (r : Row) (hr : r ∈ clean rs) :
    0 ≤ r.age := by
  obtain ⟨x, _, hage, rfl⟩ := mem_clean hr
  exact hage

/-- Witness for C7 at a concrete raw table containing a negative-age row. -/
theorem clean_age_nonneg_check : 0 ≤ (deriveRow rawA).age :=
  clean_age_nonneg sampleRaws (deriveRow rawA) (by decide)

/-- C8: in every chart specification whose color encodes the attendance
outcome, the did-not-attend category maps to '#FF9500' and the attended
category to '#007AFF': the main histogram, the pie and the box plot key the
map by the string outcome label, the gender and SMS bars by the 0/1 flag. -/
theorem outcome_color_mapping (t : List Row) (f : String)
    (hf : f ∈ dropdownValues) :
    (updateMainGraph t f).map (fun s =>
        (s.colorMap.lookup (ColorKey.str "Yes"),
         s.colorMap.lookup (ColorKey.str "No"))) =
      some (some "#FF9500", some "#007AFF") ∧
    (updateTargetGraph t f).map (fun s =>
        (s.colorMap.lookup (ColorKey.str "Yes"),
         s.colorMap.lookup (ColorKey.str "No"))) =
      some (some "#FF9500", some "#007AFF") ∧
    (updateWaitingByDay t f).map (fun s =>
        (s.colorMap.lookup (ColorKey.str "Yes"),
         s.colorMap.lookup (ColorKey.str "No"))) =
      some (some "#FF9500", some "#007AFF") ∧
    (updateGenderGraph t f).map (fun s =>
        (s.colorMap.lookup (ColorKey.num 1),
         s.colorMap.lookup (ColorKey.num 0))) =
      some (some "#FF9500", some "#007AFF") ∧
    (updateSmsGraph t f).map (fun s =>
        (s.colorMap.lookup (ColorKey.num 1),
         s.colorMap.lookup (ColorKey.num 0))) =
      some (some "#FF9500", some "#007AFF") := by
  fin_cases hf <;> exact ⟨rfl, rfl, rfl, rfl, rfl⟩

/-- Witness for C8 at a concrete table, selection "Age". -/
theorem outcome_color_mapping_check :
    (updateMainGraph sampleT "Age").map (fun s =>
        (s.colorMap.lookup (ColorKey.str "Yes"),
         s.colorMap.lookup (ColorKey.str "No"))) =
      some (some "#FF9500", some "#007AFF") ∧
    (updateGenderGraph sampleT "Age").map (fun s =>
        (s.colorMap.lookup (ColorKey.num 1),
         s.colorMap.lookup (ColorKey.num 0))) =
      some (some "#FF9500", some "#007AFF") :=
  ⟨(outcome_color_mapping sampleT "Age" (by decide)).1,
   (outcome_color_mapping sampleT "Age" (by decide)).2.2.2.1⟩

/-- C9: under the precondition that the selected feature is one of the
eight enumerated dropdown values, every chart-builder callback succeeds on
every cleaned table: each column name any of them looks up is present, so
no error branch is reachable. -/
theorem callbacks_total (t : List Row) (f : String)
    (hf : f ∈ dropdownValues) :
    (updateMainGraph t f).isSome = true ∧
    (updateTargetGraph t f).isSome = true ∧
    (updateGenderGraph t f).isSome = true ∧
    (updateSmsGraph t f).isSome = true ∧
    (updateWaitingByDay t f).isSome = true ∧
    (updateAgeRateGraph t f).isSome = true ∧
    (updateDayRateGraph t f).isSome = true := by
  fin_cases hf <;> exact ⟨rfl, rfl, rfl, rfl, rfl, rfl, rfl⟩

/-- Witness for C9 at a concrete table, selection "Gender". -/
theorem callbacks_total_check :
    (updateMainGraph sampleT "Gender").isSome = true ∧
    (updateTargetGraph sampleT "Gender").isSome = true ∧
    (updateGenderGraph sampleT "Gender").isSome = true ∧
    (updateSmsGraph sampleT "Gender").isSome = true ∧
    (updateWaitingByDay sampleT "Gender").isSome = true ∧
    (updateAgeRateGraph sampleT "Gender").isSome = true ∧
    (updateDayRateGraph sampleT "Gender").isSome = true :=
  callbacks_total sampleT "Gender" (by decide)

/-- Bucket assignment of a cleaned row: bucket `b < 10` holds exactly the
ages of the right-open decade interval `[10b, 10(b+1))`. -/
lemma ageGroup_some_iff (x : RawRow) (hx : 0 ≤ x.age) {b : ℕ} (hb : b < 10) :
    (deriveRow x).ageGroup = some b ↔
      10 * (b : ℤ) ≤ x.age ∧ x.age < 10 * ((b : ℤ) + 1) := by
  show (if 0 ≤ x.age ∧ x.age < 100 then some (x.age.toNat / 10) else none) =
      some b ↔ _
  by_cases h : x.age < 100
  · rw [if_pos ⟨hx, h⟩]
    constructor
    · intro hsome
      have hdiv : x.age.toNat / 10 = b := Option.some.inj hsome
      omega
    · intro hrange
      have hdiv : x.age.toNat / 10 = b := by omega
      rw [hdiv]
  · rw [if_neg fun hc => h hc.2]
    constructor
    · intro hnone
      exact absurd hnone (by simp)
    · intro hrange
      exact absurd (show x.age < 100 by omega) h

/-- C4: the age-group summary assigns each cleaned row to right-open decade
buckets: every summary row has a bucket index below 10, its bucket (the
rows with `10b <= age < 10(b+1)`) is nonempty, its mean is the mean of the
no-show flag over exactly those rows, and its rate is that mean times 100;
rows with age >= 100 receive no bucket, so they contribute to no summary
row. -/
theorem age_bucket_summary (rs : List RawRow) :
    (∀ r ∈ clean rs, 100 ≤ r.age → r.ageGroup = none) ∧
    (∀ e ∈ ageGroupRate (clean rs),
      e.bucket < 10 ∧
      (clean rs).filter (fun r =>
          decide (10 * (e.bucket : ℤ) ≤ r.age ∧
            r.age < 10 * ((e.bucket : ℤ) + 1))) ≠ [] ∧
      e.meanFlag = flagMean ((clean rs).filter (fun r =>
          decide (10 * (e.bucket : ℤ) ≤ r.age ∧
            r.age < 10 * ((e.bucket : ℤ) + 1)))) ∧
      e.ratePct = e.meanFlag * 100) := by
  constructor
  · intro r hr h100
    obtain ⟨x, _, hx, rfl⟩ := mem_clean hr
    show (if 0 ≤ x.age ∧ x.age < 100 then some (x.age.toNat / 10) else none) =
        none
    have h100x : (100 : ℤ) ≤ x.age := h100
    rw [if_neg fun hc => by omega]
  · intro e he
    rw [ageGroupRate, List.mem_filterMap] at he
    obtain ⟨b, hbmem, hsome⟩ := he
    have hb : b < 10 := List.mem_range.mp hbmem
    by_cases hempty : (bucketRows (clean rs) b).isEmpty
    · rw [if_pos hempty] at hsome
      exact absurd hsome (by simp)
    · rw [if_neg hempty] at hsome
      obtain rfl := Option.some.inj hsome
      have hfilter : bucketRows (clean rs) b =
          (clean rs).filter (fun r =>
            decide (10 * (b : ℤ) ≤ r.age ∧ r.age < 10 * ((b : ℤ) + 1))) := by
        apply List.filter_congr
        intro r hr
        obtain ⟨x, _, hx, rfl⟩ := mem_clean hr
        exact decide_eq_decide.mpr (ageGroup_some_iff x hx hb)
      refine ⟨hb, ?_, ?_, rfl⟩
      · rw [← hfilter]
        simpa [List.isEmpty_iff] using hempty
      · rw [← hfilter]

/-- The concrete sample table has at least one age-bucket summary row. -/
lemma sampleAgeRate_ne : ageGroupRate (clean sampleRaws) ≠ [] := by decide

/-- Witness for C4 at a concrete raw table: the age-105 row is unbucketed,
and the first summary row has a bucket index below 10. -/
theorem age_bucket_summary_check :
    (deriveRow rawD).ageGroup = none ∧
    ((ageGroupRate (clean sampleRaws)).head sampleAgeRate_ne).bucket < 10 :=
  ⟨(age_bucket_summary sampleRaws).1 (deriveRow rawD) (by decide) (by decide),
   ((age_bucket_summary sampleRaws).2 _ (List.head_mem sampleAgeRate_ne)).1⟩

/-- C5: the weekday summary table has one row per weekday name, in the
fixed order Monday..Sunday; a weekday with zero appointments in the cleaned
table carries a missing rate cell (`none`), never the value 0, and a
weekday with appointments carries the mean no-show flag of its rows times
100. -/
theorem weekday_summary_shape (t : List Row) :
    ((dayRate t).map fun e => e.day) = dayOrder ∧
    ∀ e ∈ dayRate t,
      (e.ratePct = none ↔
        (t.filter fun r => r.appointmentDayOfWeek == e.day) = []) ∧
      (e.ratePct = none ∨
        e.ratePct =
          some (flagMean (t.filter fun r => r.appointmentDayOfWeek == e.day)
            * 100)) := by
  constructor
  · rw [dayRate, List.map_map]
    conv_rhs => rw [← List.map_id dayOrder]
    refine List.map_congr_left fun d _ => ?_
    simp only [Function.comp_apply, id_eq]
    split <;> rfl
  · intro e he
    rw [dayRate, List.mem_map] at he
    obtain ⟨d, _, hde⟩ := he
    by_cases hempty : (t.filter fun r => r.appointmentDayOfWeek == d).isEmpty
    · rw [if_pos hempty] at hde
      obtain rfl := hde.symm
      exact ⟨by simpa [List.isEmpty_iff] using hempty, Or.inl rfl⟩
    · rw [if_neg hempty] at hde
      obtain rfl := hde.symm
      refine ⟨⟨fun hc => absurd hc (by simp), fun hc => ?_⟩, Or.inr rfl⟩
      exact absurd (by simpa [List.isEmpty_iff] using hc) hempty

/-- The weekday summary of the concrete sample table is nonempty. -/
lemma sampleDayRate_ne : dayRate sampleT ≠ [] := by decide

/-- Witness for C5 at a concrete cleaned table: the column of weekday names
is exactly Monday..Sunday, and the first row's missing-rate cell is
equivalent to its weekday having no appointments. -/
theorem weekday_summary_shape_check :
    ((dayRate sampleT).map fun e => e.day) = dayOrder ∧
    (((dayRate sampleT).head sampleDayRate_ne).ratePct = none ↔
      (sampleT.filter fun r =>
        r.appointmentDayOfWeek ==
          ((dayRate sampleT).head sampleDayRate_ne).day) = []) :=
  ⟨(weekday_summary_shape sampleT).1,
   ((weekday_summary_shape sampleT).2 _ (List.head_mem sampleDayRate_ne)).1⟩

/-- Deduplicating a nonempty constant list leaves the single value. -/
lemma dedup_replicate_of_ne {α : Type} [DecidableEq α] (n : ℕ) (a : α)
    (h : n ≠ 0) : (List.replicate n a).dedup = [a] := by
  induction n with
  | zero => exact absurd rfl h
  | succ m ih =>
    rcases Nat.eq_zero_or_pos m with hm | hm
    · subst hm
      simp
    · rw [List.replicate_succ,
        List.dedup_cons_of_mem (by simp [List.mem_replicate]; omega)]
      exact ih (by omega)

/-- The card formatter prints the rational 0 as "0.0". -/
lemma formatFixed1_zero : formatFixed1 0 = "0.0" := by
  have h : ⌊(0 : ℚ) * 10 + 1 / 2⌋ = 0 := by
    rw [Int.floor_eq_iff]
    norm_num
  unfold formatFixed1
  rw [h]
  decide

/-- The card formatter prints the rational 100 as "100.0". -/
lemma formatFixed1_hundred : formatFixed1 100 = "100.0" := by
  have h : ⌊(100 : ℚ) * 10 + 1 / 2⌋ = 1000 := by
    rw [Int.floor_eq_iff]
    norm_num
  unfold formatFixed1
  rw [h]
  decide

/-- C6: given a nonempty cleaned table in which every row has outcome
"did not attend" (no-show = "Yes"), the show-rate summary card displays
"0.0%" and the no-show-rate summary card displays "100.0%". -/
theorem all_no_show_cards (t : List Row) (h1 : t ≠ [])
    (h2 : ∀ r ∈ t, r.noShow = "Yes") :
    showRateStr t = some "0.0%" ∧ noShowRateStr t = some "100.0%" := by
  have hmap : t.map (fun r => r.noShow) = List.replicate t.length "Yes" := by
    have hall : ∀ b ∈ t.map fun r => r.noShow, b = "Yes" := by
      intro b hb
      rw [List.mem_map] at hb
      obtain ⟨r, hr, rfl⟩ := hb
      exact h2 r hr
    have hrep := List.eq_replicate_of_mem hall
    rwa [List.length_map] at hrep
  have hlen0 : t.length ≠ 0 := fun hc => h1 (List.length_eq_zero.mp hc)
  have hshare : noShowShare t = some 1 := by
    rw [noShowShare, valueCountsNormalized, hmap,
      dedup_replicate_of_ne _ _ hlen0]
    simp only [List.map_cons, List.map_nil, List.count_replicate_self,
      List.lookup_cons_self]
    rw [div_self (Nat.cast_ne_zero.mpr hlen0)]
  constructor
  · rw [showRateStr, hshare]
    simp only [Option.map_some']
    rw [show (100 - 1 * 100 : ℚ) = 0 by norm_num, formatFixed1_zero]
    decide
  · rw [noShowRateStr, hshare]
    simp only [Option.map_some']
    rw [show (1 * 100 : ℚ) = 100 by norm_num, formatFixed1_hundred]
    decide

/-- Witness for C6 at a concrete one-row all-no-show cleaned table. -/
theorem all_no_show_cards_check :
    showRateStr (clean [rawE]) = some "0.0%" ∧
    noShowRateStr (clean [rawE]) = some "100.0%" :=
  all_no_show_cards (clean [rawE]) (by decide) (by decide)

/-- A string-keyed association list with no key equal to `a` has no lookup
result at `a`. -/
lemma lookup_eq_none_of_keys {β : Type} (l : List (String × β)) (a : String)
    (h : ∀ p ∈ l, p.1 ≠ a) : l.lookup a = none := by
  induction l with
  | nil => rfl
  | cons p tl ih =>
    obtain ⟨k, v⟩ := p
    have hne : k ≠ a := h (k, v) (List.mem_cons_self _ _)
    have hb : (a == k) = false := beq_eq_false_iff_ne.mpr fun hc => hne hc.symm
    simp only [List.lookup, hb]
    exact ih fun q hq => h q (List.mem_cons_of_mem _ hq)

/-- C10: the startup summary-card computation is partial: on any cleaned
table with zero rows of outcome "Yes", the normalized outcome counts have
no entry at key "Yes", so the unconditional `['Yes']` indexing fails (a
pandas `KeyError`, modelled as `none`) and neither card produces a
percentage string. -/
theorem cards_missing_yes_key (t : List Row)
    (h : ∀ r ∈ t, r.noShow ≠ "Yes") :
    noShowShare t = none ∧ showRateStr t = none ∧ noShowRateStr t = none := by
  have hshare : noShowShare t = none := by
    rw [noShowShare]
    apply lookup_eq_none_of_keys
    intro p hp
    rw [valueCountsNormalized, List.mem_map] at hp
    obtain ⟨v, hv, rfl⟩ := hp
    rw [List.mem_dedup, List.mem_map] at hv
    obtain ⟨r, hr, rfl⟩ := hv
    exact h r hr
  exact ⟨hshare, by rw [showRateStr, hshare]; rfl,
    by rw [noShowRateStr, hshare]; rfl⟩

/-- Witness for C10 at a concrete nonempty cleaned table whose only row
attended. -/
theorem cards_missing_yes_key_check :
    noShowShare (clean [rawA]) = none ∧
    showRateStr (clean [rawA]) = none ∧
    noShowRateStr (clean [rawA]) = none :=
  cards_missing_yes_key (clean [rawA]) (by decide)

end Dashboard





